import Mathlib

/-!
# Diagram synchronization and editing model: a shallow embedding

This file embeds the diagram synchronization core of the task/incident
tracker (the Graph Projector in `src/utils/flowUtils.js`, and the
Diagram Synchronization Controller, Debounced Position Writer and Edge
Lifecycle Manager of the `FlowDiagram` component together with the
layouts' `handleTaskUpdate`) and proves or refutes the specification
claims about it.

Conventions of the embedding:
* JavaScript objects become Lean structures; fields that may be
  `null`/`undefined` become `Option` fields.
* JavaScript string truthiness (`''`, `null` and `undefined` are falsy)
  is made explicit where the source relies on it.
* A JS `Map` built by successive `set` calls answers `get` with the
  value of the *last* `set` for the key; lookups are embedded that way.
* Asynchronous persistence calls are embedded by passing the outcome of
  the call (success value or failure) as an explicit argument, and the
  `setTimeout`/`clearTimeout` debounce machinery by a small event-loop
  semantics with explicit times.
-/

/-- JS `v || d` on an optional string: `null`/`undefined` and the empty
string are falsy and fall through to the default. -/
def jsStrOr (v : Option String) (d : String) : String :=
  match v with
  | some s => if s = "" then d else s
  | none => d

/-- A 2D position object `{x, y}`.  The coordinates are nullable: the
grid-layout pass in `flowUtils.js` explicitly tests `x != null` and
`y != null`. -/
structure Pos where
  x : Option Int
  y : Option Int
deriving DecidableEq, Repr

/-- A member of the user directory (only the fields the projector
reads). -/
structure User where
  id : String
  name : String
deriving DecidableEq, Repr

/-- A stored work item (task or incident), with the fields the diagram
core reads.  `deleted` and `isNew` are the single-item-patch flags set
by the detail drawer (`{...editedTask, deleted: true}` resp.
`{...savedTask, isNew: true}`); an absent flag is `false`. -/
structure Item where
  id : String
  task_type : String
  status : String
  priority : String
  title : String
  assignedTo : Option String
  reportedBy : Option String
  position : Option Pos
  deleted : Bool := false
  isNew : Bool := false
deriving DecidableEq, Repr

/-- `new Map(users.map(user => [user.id, user])).get(uid)`: the last
entry for a duplicated id wins, a missing id gives `undefined`. -/
def lookupUser (users : List User) (uid : String) : Option User :=
  ((users.filter (fun u => u.id == uid)).getLast?)

/-- `item.assignedTo ? userMap.get(item.assignedTo) : null`
(`''` is falsy in JS, so an empty assignment resolves to `null`). -/
def assignedUserOf (users : List User) (assignedTo : Option String) : Option User :=
  match assignedTo with
  | some uid => if uid = "" then none else lookupUser users uid
  | none => none

/-- `assignedUser ? assignedUser.name : 'Sin asignar'`. -/
def assigneeNameOf (users : List User) (assignedTo : Option String) : String :=
  match assignedUserOf users assignedTo with
  | some u => u.name
  | none => "Sin asignar"

/-- The `data` payload of a rendered node: the spread `{...item}` plus
the three derived fields added by the projector.  (The spread is kept
as one `task` field rather than flattened.) -/
structure NodeData where
  task : Item
  assigneeName : String
  isIncident : Bool
  reportedByName : Option String
deriving DecidableEq, Repr

/-- A rendered React Flow node (`{id, type, position, data}`). -/
structure FlowNode where
  id : String
  ntype : String
  position : Pos
  data : NodeData
deriving DecidableEq, Repr

/-- Node projection of `createNodesAndEdges` (`src/utils/flowUtils.js`):
`position: item.position || { x: 0, y: 0 }` (a present position object
is always truthy, even `{x: null, y: null}`), name resolution through
the user map, `isIncident` derived from `task_type`. -/
def projectNode (users : List User) (item : Item) : FlowNode :=
  { id := item.id
    ntype := "task"
    position := item.position.getD ⟨some 0, some 0⟩
    data :=
      { task := item
        assigneeName := assigneeNameOf users item.assignedTo
        isIncident := item.task_type == "incident"
        reportedByName :=
          (assignedUserOf users item.reportedBy).map (fun u => u.name) } }

/-- The optional `style` object carried by a stored edge record. -/
structure EStyle where
  stroke : Option String
  strokeWidth : Option Nat
deriving DecidableEq, Repr

/-- A stored edge record as returned by the Entity Store. -/
structure DbEdge where
  id : String
  source : String
  target : String
  style : Option EStyle
deriving DecidableEq, Repr

/-- The resolved style of a rendered edge (both fields definite). -/
structure RStyle where
  stroke : String
  strokeWidth : Nat
deriving DecidableEq, Repr

/-- A rendered edge after projection. -/
structure RenderedEdge where
  id : String
  source : String
  target : String
  animated : Bool
  style : RStyle
deriving DecidableEq, Repr

/-- Edge projection of `createNodesAndEdges` (`src/utils/flowUtils.js`):
`{...edge, animated: false, style: {stroke: edge.style?.stroke ||
'#4a90e2', strokeWidth: 20}}` — the width is the fixed constant 20
whatever the input style says. -/
def processEdge (edge : DbEdge) : RenderedEdge :=
  { id := edge.id
    source := edge.source
    target := edge.target
    animated := false
    style :=
      { stroke := jsStrOr (edge.style.bind (fun s => s.stroke)) "#4a90e2"
        strokeWidth := 20 } }

/-- `createNodesAndEdges(unifiedTasks, edges, users)` from
`src/utils/flowUtils.js`. -/
def createNodesAndEdges (unifiedTasks : List Item) (edges : List DbEdge)
    (users : List User) : List FlowNode × List RenderedEdge :=
  (unifiedTasks.map (projectNode users), edges.map processEdge)

/-- `autoLayoutNodes` from `src/utils/flowUtils.js`: keeps any node
whose position has both coordinates non-null, otherwise assigns the
grid slot `((i % 4) * 300, (i / 4) * 200)`.  (A node's `position`
object itself is always present on rendered nodes, so the JS
`node.position &&` guard is vacuous here.) -/
def autoLayoutNodes (nodes : List FlowNode) : List FlowNode :=
  (nodes.enum).map (fun p =>
    if p.2.position.x ≠ none ∧ p.2.position.y ≠ none then p.2
    else { p.2 with
            position := ⟨some ((p.1 % 4 : Nat) * 300), some ((p.1 / 4 : Nat) * 200)⟩ })

/-! ## Position Reconciler

The merge performed inside `loadFlowData`'s `setNodes` callback in the
`FlowDiagram` component: fresh projected nodes keep their data, but a
node whose id is already rendered takes the currently rendered
(possibly user-dragged) position. -/

/-- `currentPositions.get(id)` where `currentPositions` is the `Map`
filled by `currentNodes.forEach(node => currentPositions.set(node.id,
node.position))`: the position of the last current node with this id,
or `undefined`. -/
def currentPositionsGet (currentNodes : List FlowNode) (id : String) : Option Pos :=
  ((currentNodes.filter (fun n => n.id == id)).getLast?).map (fun n => n.position)

/-- The `setNodes` merge of `loadFlowData`: if there are no current
nodes the fresh nodes pass through; otherwise every fresh node is
re-positioned by `currentPositions.get(newNode.id) || newNode.position`
(the stored value is a position object, hence truthy whenever
present). -/
def reconcileNodes (currentNodes flowNodes : List FlowNode) : List FlowNode :=
  if currentNodes.isEmpty then flowNodes
  else
    flowNodes.map (fun newNode =>
      { newNode with
          position := (currentPositionsGet currentNodes newNode.id).getD newNode.position })

/-! ## Diagram Synchronization Controller: single-item patch path

`handleTaskUpdate` in `src/layouts/Layout.jsx` / `ManagerLayout.jsx`
updates the layout-held task list and selection and signals the
diagram through the `updatedTask` prop; the `FlowDiagram` effect on
`updatedTask` then rewrites the matching node's `data` in place, and
the load effect decides whether a full reload runs. -/

/-- The layout state that participates in a single-item patch. -/
structure LayoutState where
  tasks : List Item
  selectedTask : Option Item
  lastUpdatedTask : Option Item
deriving DecidableEq, Repr

/-- `handleTaskUpdate(updatedTask)` from `src/layouts/Layout.jsx`
(identical in `ManagerLayout.jsx`): deletion filters the task list and
clears the selection, a new task is appended, otherwise the task is
replaced in place; in every branch `lastUpdatedTask` is set to the
patch (the `_timestamp` field added there only retriggers the effect
and is not modelled). -/
def handleTaskUpdate (s : LayoutState) (updatedTask : Item) : LayoutState :=
  if updatedTask.deleted then
    { tasks := s.tasks.filter (fun t => !(t.id == updatedTask.id))
      selectedTask := none
      lastUpdatedTask := some updatedTask }
  else if updatedTask.isNew then
    { tasks := s.tasks ++ [updatedTask]
      selectedTask := some updatedTask
      lastUpdatedTask := some updatedTask }
  else
    { tasks := s.tasks.map (fun t => if t.id == updatedTask.id then updatedTask else t)
      selectedTask := some updatedTask
      lastUpdatedTask := some updatedTask }

/-- The node `data` built by the `FlowDiagram` effect on `updatedTask`:
`{...updatedTask, assigneeName, isIncident}` — unlike the projector it
does not set `reportedByName`. -/
def effectData (users : List User) (ut : Item) : NodeData :=
  { task := ut
    assigneeName := assigneeNameOf users ut.assignedTo
    isIncident := ut.task_type == "incident"
    reportedByName := none }

/-- The `FlowDiagram` effect on `updatedTask`: with a patch and a user
list present, map over the current nodes replacing the data of the
node whose id matches the patch; every other node — and therefore the
node *set* — is untouched. -/
def updatedTaskEffect (updatedTask : Option Item) (users : Option (List User))
    (nodes : List FlowNode) : List FlowNode :=
  match updatedTask, users with
  | some ut, some us =>
      nodes.map (fun node =>
        if node.id == ut.id then { node with data := effectData us ut } else node)
  | _, _ => nodes

/-- The condition of the `FlowDiagram` load effect:
`if (nodes.length === 0 || !updatedTask) loadFlowData()` — a full
reload runs only when nothing is rendered yet or no single-item patch
was supplied. -/
def shouldFullReload (nodes : List FlowNode) (updatedTask : Option Item) : Bool :=
  nodes.isEmpty || updatedTask.isNone

/-- Result of pushing one single-item patch through the layout and the
diagram: the new layout state, the diagram's node collection after the
`updatedTask` effect, and whether the load effect triggers a full
reload. -/
structure PatchResult where
  layout : LayoutState
  nodes : List FlowNode
  fullReload : Bool
deriving DecidableEq, Repr

/-- One single-item patch, end to end: `handleTaskUpdate` runs in the
layout, the new `lastUpdatedTask` is passed to the diagram as the
`updatedTask` prop, the diagram's effect rewrites node data in place,
and the load effect's condition is evaluated on the resulting
state. -/
def applySingleItemPatch (users : List User) (l : LayoutState)
    (nodes : List FlowNode) (patch : Item) : PatchResult :=
  let l2 := handleTaskUpdate l patch
  let nodes2 := updatedTaskEffect l2.lastUpdatedTask (some users) nodes
  { layout := l2
    nodes := nodes2
    fullReload := shouldFullReload nodes2 l2.lastUpdatedTask }

/-! ## Edge Lifecycle Manager

`onConnect`, and `handleEdgeDelete`, from the `FlowDiagram`
component. -/

/-- The connection parameters delivered by a connect gesture. -/
structure ConnectParams where
  source : String
  target : String
deriving DecidableEq, Repr

/-- The edge identity generated by `onConnect`:
`` `${params.source}-${params.target}-${Date.now()}` `` — source id,
target id and the millisecond timestamp, nothing else. -/
def mkEdgeId (source target : String) (now : Nat) : String :=
  source ++ "-" ++ target ++ "-" ++ Nat.repr now

/-- A local React Flow edge as built by `onConnect`. -/
structure FEdge where
  id : String
  source : String
  target : String
  etype : String
  animated : Bool
  style : RStyle
deriving DecidableEq, Repr

/-- The `newEdge` object of `onConnect`: `{...params, id:
`${source}-${target}-${Date.now()}`, type: 'bezier', animated: false,
style: {stroke: '#4a90e2', strokeWidth: 20}}`. -/
def newEdgeOf (params : ConnectParams) (now : Nat) : FEdge :=
  { id := mkEdgeId params.source params.target now
    source := params.source
    target := params.target
    etype := "bezier"
    animated := false
    style := ⟨"#4a90e2", 20⟩ }

/-- Boundary model of `@xyflow/react`'s `addEdge` as the spec uses it:
the new edge is appended to the local edge collection. -/
def addEdge (e : FEdge) (eds : List FEdge) : List FEdge :=
  eds ++ [e]

/-- The outcome of the asynchronous `apiService.createEdge` call: the
saved edge returned by the server, or a thrown error. -/
inductive PersistOutcome where
  | ok (saved : FEdge)
  | failed
deriving DecidableEq, Repr

/-- `onConnect(params)` with the persistence outcome made explicit.
The first component is the edge collection right after the optimistic
`setEdges(addEdge(newEdge, eds))` — computed before the persistence
call.  The second is the collection after the `try/catch`: a failure
only logs (the optimistic edge is retained); a saved edge with a
different id patches the local edge in place
(`eds.map(edge => edge.id === newEdge.id ? {...edge, ...savedEdge} :
edge)`, i.e. every field of the saved record wins). -/
def onConnect (eds : List FEdge) (params : ConnectParams) (now : Nat)
    (outcome : PersistOutcome) : List FEdge × List FEdge :=
  let newEdge := newEdgeOf params now
  let optimistic := addEdge newEdge eds
  let final :=
    match outcome with
    | .ok saved =>
        if saved.id ≠ newEdge.id then
          optimistic.map (fun edge => if edge.id == newEdge.id then saved else edge)
        else optimistic
    | .failed => optimistic
  (optimistic, final)

/-- `handleEdgeDelete(edgeId)`: `await apiService.deleteEdge(edgeId)`
runs first; only when it succeeds does `setEdges` filter the edge out,
and a thrown error is caught and logged with no state change. -/
def handleEdgeDelete (eds : List FEdge) (edgeId : String)
    (persistOk : Bool) : List FEdge :=
  if persistOk then eds.filter (fun e => !(e.id == edgeId)) else eds

/-! ## Debounced Position Writer

`handleNodesChange` of the `FlowDiagram` component filters the
drag-end position changes out of a `changes` batch and debounces one
batched `updateTaskPositions` write through the single timer handle
`positionUpdateTimeoutRef` (window 500ms); the cleanup effect clears a
pending timer on unmount.  The `setTimeout`/`clearTimeout` machinery
is embedded as a small event-loop semantics with explicit times. -/

/-- A React Flow node change as far as the writer reads it. -/
structure NodeChange where
  ctype : String
  dragging : Bool
  id : String
  position : Pos
deriving DecidableEq, Repr

/-- `changes.filter(change => change.type === 'position' &&
change.dragging === false)`. -/
def positionChangesOf (changes : List NodeChange) : List NodeChange :=
  changes.filter (fun c => c.ctype == "position" && c.dragging == false)

/-- The batched payload `positionChanges.map(change => ({id: change.id,
position: change.position}))`. -/
structure PosUpdate where
  id : String
  position : Pos
deriving DecidableEq, Repr

/-- See `PosUpdate`. -/
def updatesOf (cs : List NodeChange) : List PosUpdate :=
  cs.map (fun c => ⟨c.id, c.position⟩)

/-- The writer's state: the single pending timer handle (fire time and
the `updates` captured by the `setTimeout` closure) and the batch
writes already sent, each with the time it was sent. -/
structure WriterState where
  pending : Option (Nat × List PosUpdate)
  writes : List (Nat × List PosUpdate)
deriving DecidableEq, Repr

/-- `handleNodesChange(changes)` at time `t`: when the filtered
position changes are non-empty, `clearTimeout` cancels any previous
handle and a single new timer is installed for `t + 500` carrying this
batch's updates. -/
def handleNodesChange (t : Nat) (changes : List NodeChange)
    (s : WriterState) : WriterState :=
  let pcs := positionChangesOf changes
  if 0 < pcs.length then { s with pending := some (t + 500, updatesOf pcs) }
  else s

/-- The event loop delivers a due timer before handling anything
scheduled at a later time: if the pending timer's fire time has been
reached, the batch write is sent and the handle cleared (the
`finally` block nulls `positionUpdateTimeoutRef`). -/
def fireIfDue (t : Nat) (s : WriterState) : WriterState :=
  match s.pending with
  | some (ft, u) => if ft ≤ t then { pending := none, writes := s.writes ++ [(ft, u)] } else s
  | none => s

/-- The externally visible events of the writer: a drag-end batch
delivered to `handleNodesChange`, or the component unmounting. -/
inductive WEvent where
  | dragEnd (t : Nat) (changes : List NodeChange)
  | unmount (t : Nat)
deriving DecidableEq, Repr

/-- One event: any timer already due fires first (single-threaded
event loop), then the event is handled.  Unmounting runs the cleanup
effect, which `clearTimeout`s and nulls the pending handle. -/
def stepEvent (s : WriterState) (e : WEvent) : WriterState :=
  match e with
  | .dragEnd t cs => handleNodesChange t cs (fireIfDue t s)
  | .unmount t => { fireIfDue t s with pending := none }

/-- After the last event the clock runs on forever, so a still-pending
timer eventually fires. -/
def drainTimer (s : WriterState) : WriterState :=
  match s.pending with
  | some (ft, u) => { pending := none, writes := s.writes ++ [(ft, u)] }
  | none => s

/-- Run a time-ordered trace of writer events from the initial state
(`positionUpdateTimeoutRef.current = null`, nothing written). -/
def runTrace (events : List WEvent) : WriterState :=
  drainTimer (events.foldl stepEvent ⟨none, []⟩)

/-! ## Concrete sample data

Small concrete records used to instantiate the claim theorems. -/

/-- A work item with no stored position. -/
def itemX : Item :=
  { id := "X", task_type := "task", status := "pending", priority := "medium"
    title := "Tarea X", assignedTo := none, reportedBy := none, position := none }

/-- The projector's data payload for `itemX` with an empty user list. -/
def dataX : NodeData :=
  { task := itemX, assigneeName := "Sin asignar", isIncident := false
    reportedByName := none }

/-- The rendered node for `itemX` placed at `p`. -/
def nodeXat (p : Pos) : FlowNode :=
  { id := "X", ntype := "task", position := p, data := dataX }

/-- A work item with identity `Y` flagged as newly created. -/
def itemYnew : Item :=
  { id := "Y", task_type := "task", status := "pending", priority := "medium"
    title := "Tarea Y", assignedTo := none, reportedBy := none, position := none
    isNew := true }

/-- A concrete local edge. -/
def sampleEdge : FEdge :=
  { id := "e1", source := "t1", target := "t2", etype := "bezier"
    animated := false, style := ⟨"#4a90e2", 20⟩ }

/-- A stored edge carrying an explicit stroke color and an explicit
stroke width of 5. -/
def edgeRed : DbEdge :=
  { id := "e1", source := "t1", target := "t2"
    style := some ⟨some "#ff0000", some 5⟩ }

/-- A stored edge carrying no style at all. -/
def edgePlain : DbEdge :=
  { id := "e2", source := "t2", target := "t3", style := none }

/-! ## Decimal representation facts

`mkEdgeId` embeds the timestamp through `Nat.repr`; to reason about
identity collisions we prove that the decimal rendering is injective,
via its left-inverse (the decimal value of the rendered digits). -/

/-- The numeric value of a decimal digit character. -/
def digitVal (c : Char) : Nat := c.toNat - 48

/-- Decimal left fold over a most-significant-first digit list. -/
def vfold (a : Nat) (cs : List Char) : Nat :=
  cs.foldl (fun acc c => 10 * acc + digitVal c) a

/-- The decimal value of a string. -/
def decValue (s : String) : Nat := vfold 0 s.data

lemma digitVal_digitChar (d : Nat) (h : d < 10) :
    digitVal (Nat.digitChar d) = d := by
  interval_cases d <;> decide

lemma vfold_toDigitsCore (f : Nat) :
    ∀ (n : Nat) (l : List Char), n < 10 ^ f →
      vfold 0 (Nat.toDigitsCore 10 f n l) = vfold n l := by
  induction f with
  | zero =>
      intro n l h
      have hn : n = 0 := by simpa using Nat.lt_one_iff.mp (by simpa using h)
      subst hn
      rfl
  | succ f ih =>
      intro n l h
      by_cases hdiv : n / 10 = 0
      · have hn : n < 10 := by omega
        have hstep : Nat.toDigitsCore 10 (f + 1) n l = Nat.digitChar (n % 10) :: l := by
          simp [Nat.toDigitsCore, hdiv]
        rw [hstep]
        have hm : n % 10 = n := Nat.mod_eq_of_lt hn
        simp [vfold, hm, digitVal_digitChar n hn]
      · have hstep : Nat.toDigitsCore 10 (f + 1) n l
            = Nat.toDigitsCore 10 f (n / 10) (Nat.digitChar (n % 10) :: l) := by
          simp [Nat.toDigitsCore, hdiv]
        have hbound : n / 10 < 10 ^ f := by
          have : n < 10 ^ f * 10 := by
            simpa [pow_succ] using h
          exact (Nat.div_lt_iff_lt_mul (by norm_num)).mpr this
        rw [hstep, ih (n / 10) _ hbound]
        have : 10 * (n / 10) + n % 10 = n := by omega
        simp [vfold, digitVal_digitChar (n % 10) (by omega), this]

lemma decValue_repr (n : Nat) : decValue (Nat.repr n) = n := by
  have hlt : n < 10 ^ (n + 1) := by
    calc n < 10 ^ n := Nat.lt_pow_self (by norm_num) n
    _ ≤ 10 ^ (n + 1) := Nat.pow_le_pow_right (by norm_num) (Nat.le_succ n)
  have hv := vfold_toDigitsCore (n + 1) n [] hlt
  simpa [decValue, Nat.repr, Nat.toDigits, List.asString, vfold] using hv

lemma repr_inj {m n : Nat} (h : Nat.repr m = Nat.repr n) : m = n := by
  have hv := congrArg decValue h
  rwa [decValue_repr, decValue_repr] at hv

/-! ## Claim theorems -/

/-- C1: on every full reload performed while the currently rendered
node collection is non-empty, each freshly projected node keeps its own
identity and data, takes the currently rendered (possibly user-dragged)
position whenever its identity already appears among the current
nodes, and keeps its own fresh position otherwise. -/
theorem reload_preserves_dragged_positions
    (currentNodes flowNodes : List FlowNode) (hne : currentNodes ≠ [])
    (i : Nat) (fn : FlowNode) (hf : flowNodes[i]? = some fn) :
    ∃ rn, (reconcileNodes currentNodes flowNodes)[i]? = some rn ∧
      rn.id = fn.id ∧ rn.data = fn.data ∧
      (∀ p, currentPositionsGet currentNodes fn.id = some p → rn.position = p) ∧
      (currentPositionsGet currentNodes fn.id = none → rn.position = fn.position) := by
  have hni : currentNodes.isEmpty = false := by
    cases currentNodes with
    | nil => exact absurd rfl hne
    | cons a l => rfl
  refine ⟨{ fn with
             position := (currentPositionsGet currentNodes fn.id).getD fn.position },
    ?_, rfl, rfl, ?_, ?_⟩
  · simp [reconcileNodes, hni, List.getElem?_map, hf]
  · intro p hp
    simp [hp]
  · intro hp
    simp [hp]

/-- C1 witness: node X currently dragged to (50,60), freshly projected
at the default (0,0); the reconciled node is X at (50,60). -/
theorem reload_preserves_dragged_positions_witness :
    ∃ rn, (reconcileNodes [nodeXat ⟨some 50, some 60⟩]
             [nodeXat ⟨some 0, some 0⟩])[0]? = some rn ∧
      rn.id = "X" ∧ rn.position = ⟨some 50, some 60⟩ := by
  obtain ⟨rn, h1, h2, _, h4, _⟩ :=
    reload_preserves_dragged_positions [nodeXat ⟨some 50, some 60⟩]
      [nodeXat ⟨some 0, some 0⟩] (by decide) 0 (nodeXat ⟨some 0, some 0⟩) rfl
  exact ⟨rn, h1, h2, h4 ⟨some 50, some 60⟩ (by decide)⟩

/-- C9 counterexample: `itemX` has no stored position, yet the
projector emits the concrete default position (0,0) — not an unset
position — and the separate grid-assignment pass then leaves that
invented default untouched. -/
theorem projector_invents_default_position :
    itemX.position = none ∧
    (projectNode [] itemX).position = ⟨some 0, some 0⟩ ∧
    autoLayoutNodes [projectNode [] itemX] = [projectNode [] itemX] := by
  decide

/-- C9 amended: an item with a missing stored position is projected at
the default (0,0) (the default is invented by the projector itself, not
deferred); an item with a stored position carries it verbatim; and the
separate grid-assignment pass never touches a node whose coordinates
are both non-null — in particular never a projector-defaulted one. -/
theorem projector_position_default_and_verbatim (users : List User) :
    (∀ item : Item, item.position = none →
       (projectNode users item).position = ⟨some 0, some 0⟩) ∧
    (∀ (item : Item) (p : Pos), item.position = some p →
       (projectNode users item).position = p) ∧
    (∀ nodes : List FlowNode,
       (∀ n ∈ nodes, n.position.x ≠ none ∧ n.position.y ≠ none) →
       autoLayoutNodes nodes = nodes) := by
  refine ⟨?_, ?_, ?_⟩
  · intro item h
    simp [projectNode, h]
  · intro item p h
    simp [projectNode, h]
  · intro nodes h
    have key : ∀ (k : Nat) (ns : List FlowNode),
        (∀ n ∈ ns, n.position.x ≠ none ∧ n.position.y ≠ none) →
        (ns.enumFrom k).map (fun p =>
          if p.2.position.x ≠ none ∧ p.2.position.y ≠ none then p.2
          else { p.2 with
                  position := ⟨some ((p.1 % 4 : Nat) * 300),
                               some ((p.1 / 4 : Nat) * 200)⟩ }) = ns := by
      intro k ns
      induction ns generalizing k with
      | nil => intro _; rfl
      | cons a l ihl =>
          intro hall
          have ha := hall a (by simp)
          simp only [List.enumFrom, List.map_cons, if_pos ha]
          rw [ihl (k + 1) (fun n hn => hall n (by simp [hn]))]
    simpa [autoLayoutNodes, List.enum] using key 0 nodes h

/-- C9 witness for the amended claim: a positionless item lands at
(0,0); an item stored at (7,8) is projected there verbatim; the grid
pass keeps the defaulted node. -/
theorem projector_position_default_and_verbatim_witness :
    (projectNode [] itemX).position = ⟨some 0, some 0⟩ ∧
    (projectNode [] { itemX with position := some ⟨some 7, some 8⟩ }).position
      = ⟨some 7, some 8⟩ ∧
    autoLayoutNodes [nodeXat ⟨some 0, some 0⟩] = [nodeXat ⟨some 0, some 0⟩] :=
  ⟨(projector_position_default_and_verbatim []).1 itemX rfl,
   (projector_position_default_and_verbatim []).2.1 _ ⟨some 7, some 8⟩ rfl,
   (projector_position_default_and_verbatim []).2.2 _ (by decide)⟩

/-- C10: the projected edge's stroke width is the fixed constant 20
regardless of any width in the input style, and its stroke color is
the input's explicit color when one is present and the fixed default
"#4a90e2" otherwise. -/
theorem edge_style_forces_width_preserves_color (edge : DbEdge) :
    (processEdge edge).style.strokeWidth = 20 ∧
    (∀ st c, edge.style = some st → st.stroke = some c → c ≠ "" →
       (processEdge edge).style.stroke = c) ∧
    (edge.style.bind (fun s => s.stroke) = none →
       (processEdge edge).style.stroke = "#4a90e2") := by
  refine ⟨rfl, ?_, ?_⟩
  · intro st c h1 h2 h3
    simp [processEdge, h1, h2, jsStrOr, h3]
  · intro h
    simp [processEdge, h, jsStrOr]

/-- C10 witness: an edge with explicit color "#ff0000" and explicit
width 5 is rendered with its color but width 20; a style-less edge gets
the default color and width 20. -/
theorem edge_style_forces_width_preserves_color_witness :
    (processEdge edgeRed).style.strokeWidth = 20 ∧
    (processEdge edgeRed).style.stroke = "#ff0000" ∧
    (processEdge edgePlain).style.strokeWidth = 20 ∧
    (processEdge edgePlain).style.stroke = "#4a90e2" :=
  ⟨(edge_style_forces_width_preserves_color edgeRed).1,
   (edge_style_forces_width_preserves_color edgeRed).2.1 _ _ rfl rfl (by decide),
   (edge_style_forces_width_preserves_color edgePlain).1,
   (edge_style_forces_width_preserves_color edgePlain).2.2 rfl⟩

/-- C2: evaluating the deletion-patch path at its failing input.  With
node X rendered and selected, applying the patch `{id: X, deleted:
true}` clears the selection and removes X from the layout's task list,
and no full reload is triggered — but node X is NOT removed from the
rendered node collection: the `updatedTask` effect only rewrites
matching node data in place, so X stays rendered (with the deletion
payload as its data). -/
theorem deletion_patch_leaves_node_rendered :
    (applySingleItemPatch [] ⟨[itemX], some itemX, none⟩
        [nodeXat ⟨some 50, some 60⟩] { itemX with deleted := true }).layout.selectedTask
      = none ∧
    (applySingleItemPatch [] ⟨[itemX], some itemX, none⟩
        [nodeXat ⟨some 50, some 60⟩] { itemX with deleted := true }).layout.tasks = [] ∧
    (applySingleItemPatch [] ⟨[itemX], some itemX, none⟩
        [nodeXat ⟨some 50, some 60⟩] { itemX with deleted := true }).fullReload = false ∧
    (applySingleItemPatch [] ⟨[itemX], some itemX, none⟩
        [nodeXat ⟨some 50, some 60⟩] { itemX with deleted := true }).nodes.map
          (fun n => n.id) = ["X"] := by
  decide

/-- C3: evaluating the new-item-patch path at its failing input.  With
only node X rendered, applying the patch `{id: Y, isNew: true}` appends
Y to the layout's task list and skips the full reload — but NO node
with identity Y is appended to the rendered node collection: the
`updatedTask` effect only maps over existing nodes, so the new item
never appears in the diagram. -/
theorem new_item_patch_appends_no_node :
    (applySingleItemPatch [] ⟨[itemX], none, none⟩
        [nodeXat ⟨some 0, some 0⟩] itemYnew).layout.tasks.map (fun t => t.id)
      = ["X", "Y"] ∧
    (applySingleItemPatch [] ⟨[itemX], none, none⟩
        [nodeXat ⟨some 0, some 0⟩] itemYnew).fullReload = false ∧
    (applySingleItemPatch [] ⟨[itemX], none, none⟩
        [nodeXat ⟨some 0, some 0⟩] itemYnew).nodes.map (fun n => n.id) = ["X"] := by
  decide

/-- C4 counterexample: drag-end on node A at t=0 followed by drag-end
on node B at t=100 (both inside one 500ms quiet window) produces a
single write at t=600 containing ONLY B's update — A's position
update, although accumulated since the last flush, is discarded when
the timer is reset, so the fired batch does not contain every update
accumulated since the last flush. -/
theorem debounce_drops_earlier_batch :
    runTrace [.dragEnd 0 [⟨"position", false, "A", ⟨some 10, some 20⟩⟩],
              .dragEnd 100 [⟨"position", false, "B", ⟨some 30, some 40⟩⟩]]
      = ⟨none, [(600, [⟨"B", ⟨some 30, some 40⟩⟩])]⟩ ∧
    ∀ w ∈ (runTrace [.dragEnd 0 [⟨"position", false, "A", ⟨some 10, some 20⟩⟩],
              .dragEnd 100 [⟨"position", false, "B", ⟨some 30, some 40⟩⟩]]).writes,
      ∀ u ∈ w.2, u.id ≠ "A" := by
  decide

/-- C4 amended: a single outstanding timer is reset by each drag-end
inside the 500ms quiet period, and when it fires it sends one batch
write containing the updates of the MOST RECENT drag-end event (earlier
batches pending in the window are discarded, not accumulated); for
three drag-end events at t0, t1, t2 each within 500ms of the previous
one, exactly one write occurs, at t2+500, carrying the last event's
updates. -/
theorem debounce_last_batch_single_write
    (t0 t1 t2 : Nat) (c0 c1 c2 : List NodeChange)
    (h0 : 0 < (positionChangesOf c0).length)
    (h1 : 0 < (positionChangesOf c1).length)
    (h2 : 0 < (positionChangesOf c2).length)
    (h01 : t1 < t0 + 500) (h12 : t2 < t1 + 500) :
    runTrace [.dragEnd t0 c0, .dragEnd t1 c1, .dragEnd t2 c2]
      = ⟨none, [(t2 + 500, updatesOf (positionChangesOf c2))]⟩ := by
  have hn01 : ¬ (t0 + 500 ≤ t1) := by omega
  have hn12 : ¬ (t1 + 500 ≤ t2) := by omega
  simp [runTrace, stepEvent, fireIfDue, handleNodesChange, drainTimer,
    h0, h1, h2, hn01, hn12]

/-- C4 witness: drag-ends on node A at t=0, t=100, t=200 give exactly
one batched write, at t=700, containing A's final position (120,80). -/
theorem debounce_last_batch_single_write_witness :
    runTrace [.dragEnd 0 [⟨"position", false, "A", ⟨some 10, some 10⟩⟩],
              .dragEnd 100 [⟨"position", false, "A", ⟨some 50, some 50⟩⟩],
              .dragEnd 200 [⟨"position", false, "A", ⟨some 120, some 80⟩⟩]]
      = ⟨none, [(700, [⟨"A", ⟨some 120, some 80⟩⟩])]⟩ := by
  have h := debounce_last_batch_single_write 0 100 200
    [⟨"position", false, "A", ⟨some 10, some 10⟩⟩]
    [⟨"position", false, "A", ⟨some 50, some 50⟩⟩]
    [⟨"position", false, "A", ⟨some 120, some 80⟩⟩]
    (by decide) (by decide) (by decide) (by decide) (by decide)
  simpa using h

/-- C5: if the component is torn down while a position-update timer is
pending (teardown strictly before the drag-end time plus the 500ms
window), the cleanup effect cancels the timer and no write ever
occurs. -/
theorem teardown_cancels_pending_write
    (t0 t1 : Nat) (c : List NodeChange)
    (h : 0 < (positionChangesOf c).length)
    (ht : t1 < t0 + 500) :
    (runTrace [.dragEnd t0 c, .unmount t1]).writes = [] := by
  have hn : ¬ (t0 + 500 ≤ t1) := by omega
  simp [runTrace, stepEvent, fireIfDue, handleNodesChange, drainTimer, h, hn]

/-- C5 witness: one drag-end at t=0, teardown at t=50 — no write. -/
theorem teardown_cancels_pending_write_witness :
    (runTrace [.dragEnd 0 [⟨"position", false, "A", ⟨some 10, some 20⟩⟩],
               .unmount 50]).writes = [] :=
  teardown_cancels_pending_write 0 50
    [⟨"position", false, "A", ⟨some 10, some 20⟩⟩] (by decide) (by decide)

/-- C6 counterexample: the generated edge identity is exactly
source-target-timestamp — it contains no random token — so two connect
gestures on the same (source, target) pair in the same millisecond
yield edges with IDENTICAL identities, refuting that immediate
succession always yields different identities. -/
theorem edge_id_same_timestamp_collision :
    (newEdgeOf ⟨"S", "T"⟩ 1000).id = "S-T-1000" ∧
    ¬ (∀ e1 e2 : FEdge, e1 = newEdgeOf ⟨"S", "T"⟩ 1000 →
         e2 = newEdgeOf ⟨"S", "T"⟩ 1000 → e1.id ≠ e2.id) := by
  refine ⟨by decide, ?_⟩
  intro h
  exact h (newEdgeOf ⟨"S", "T"⟩ 1000) (newEdgeOf ⟨"S", "T"⟩ 1000) rfl rfl rfl

/-- C6 amended: a connect gesture's edge identity is composed of the
source id, the target id and the millisecond timestamp (there is no
random token); two gestures on the same (source, target) pair yield
different identities exactly when their timestamps differ — in
particular same-millisecond gestures collide. -/
theorem edge_id_distinct_iff_timestamp_distinct
    (params : ConnectParams) (n1 n2 : Nat) :
    (newEdgeOf params n1).id = (newEdgeOf params n2).id ↔ n1 = n2 := by
  constructor
  · intro h
    apply repr_inj
    apply String.ext
    have hd := congrArg String.data h
    simp only [newEdgeOf, mkEdgeId, String.data_append] at hd
    exact List.append_cancel_left hd
  · intro h
    rw [h]

/-- C6 witness: timestamps 1000 and 1001 give distinct identities,
timestamp 1000 twice gives the same identity. -/
theorem edge_id_distinct_iff_timestamp_distinct_witness :
    (newEdgeOf ⟨"S", "T"⟩ 1000).id ≠ (newEdgeOf ⟨"S", "T"⟩ 1001).id ∧
    (newEdgeOf ⟨"S", "T"⟩ 1000).id = (newEdgeOf ⟨"S", "T"⟩ 1000).id :=
  ⟨fun h => by simpa using (edge_id_distinct_iff_timestamp_distinct ⟨"S", "T"⟩ 1000 1001).mp h,
   (edge_id_distinct_iff_timestamp_distinct ⟨"S", "T"⟩ 1000 1000).mpr rfl⟩

/-- C7: on a connect gesture the new edge is inserted into the local
edge collection immediately — the optimistic collection is the same
whatever the persistence outcome turns out to be and contains the new
edge; a persistence failure retains the optimistically inserted edge
unchanged (no rollback); and a success returning a different
authoritative id patches the local edge in place to the saved record. -/
theorem connect_optimistic_insert_and_patch
    (eds : List FEdge) (params : ConnectParams) (now : Nat) :
    (∀ outcome, (onConnect eds params now outcome).1 = eds ++ [newEdgeOf params now] ∧
       newEdgeOf params now ∈ (onConnect eds params now outcome).1) ∧
    (onConnect eds params now .failed).2 = (onConnect eds params now .failed).1 ∧
    (∀ saved, saved.id ≠ (newEdgeOf params now).id →
       (∀ e ∈ eds, e.id ≠ (newEdgeOf params now).id) →
       (onConnect eds params now (.ok saved)).2 = eds ++ [saved]) := by
  refine ⟨?_, rfl, ?_⟩
  · intro outcome
    cases outcome <;> simp [onConnect, addEdge]
  · intro saved hs hfresh
    simp only [onConnect, addEdge, if_pos hs]
    rw [List.map_append]
    have h1 : eds.map (fun edge =>
        if edge.id == (newEdgeOf params now).id then saved else edge) = eds := by
      induction eds with
      | nil => rfl
      | cons a l ihl =>
          have ha : (a.id == (newEdgeOf params now).id) = false := by
            simpa using hfresh a (by simp)
          simp only [List.map_cons, ha, Bool.false_eq_true, if_false]
          rw [ihl (fun e he => hfresh e (by simp [he]))]
    have h2 : ([newEdgeOf params now].map (fun edge =>
        if edge.id == (newEdgeOf params now).id then saved else edge)) = [saved] := by
      simp
    rw [h1, h2]

/-- C7 witness: connecting t1→t2 at t=5 on an empty collection inserts
the new edge optimistically; a failure keeps it; a success returning
server id "srv-1" patches it in place. -/
theorem connect_optimistic_insert_and_patch_witness :
    (onConnect [] ⟨"t1", "t2"⟩ 5 .failed).1 = [newEdgeOf ⟨"t1", "t2"⟩ 5] ∧
    (onConnect [] ⟨"t1", "t2"⟩ 5 .failed).2 = (onConnect [] ⟨"t1", "t2"⟩ 5 .failed).1 ∧
    (onConnect [] ⟨"t1", "t2"⟩ 5
        (.ok { sampleEdge with id := "srv-1" })).2 = [{ sampleEdge with id := "srv-1" }] :=
  ⟨((connect_optimistic_insert_and_patch [] ⟨"t1", "t2"⟩ 5).1 .failed).1,
   (connect_optimistic_insert_and_patch [] ⟨"t1", "t2"⟩ 5).2.1,
   (connect_optimistic_insert_and_patch [] ⟨"t1", "t2"⟩ 5).2.2
     { sampleEdge with id := "srv-1" } (by decide) (by intro e he; simp at he)⟩

/-- C8 counterexample: a failing server deletion leaves the edge in the
local collection — the local removal is NOT performed when persistence
fails, refuting that the edge delete removes locally unconditionally on
the persistence outcome. -/
theorem edge_delete_failure_keeps_edge :
    handleEdgeDelete [sampleEdge] "e1" false = [sampleEdge] ∧ sampleEdge.id = "e1" := by
  decide

/-- C8 amended: the edge delete operation awaits the server deletion
first and removes the edge from the local collection only when
persistence succeeds (every matching edge is gone and every other edge
is kept); when the server deletion fails, the error is only logged and
the local collection is left unchanged. -/
theorem edge_delete_persist_first (eds : List FEdge) (edgeId : String) :
    (∀ e ∈ handleEdgeDelete eds edgeId true, e.id ≠ edgeId) ∧
    (∀ e ∈ eds, e.id ≠ edgeId → e ∈ handleEdgeDelete eds edgeId true) ∧
    handleEdgeDelete eds edgeId false = eds := by
  refine ⟨?_, ?_, rfl⟩
  · intro e he
    simp [handleEdgeDelete, List.mem_filter] at he
    exact he.2
  · intro e he hne
    simp [handleEdgeDelete, List.mem_filter, he, hne]

/-- C8 witness: with the collection ["e1"], a successful delete of
"e2" keeps "e1", and a failed delete of "e1" keeps the collection
unchanged. -/
theorem edge_delete_persist_first_witness :
    sampleEdge ∈ handleEdgeDelete [sampleEdge] "e2" true ∧
    handleEdgeDelete [sampleEdge] "e1" false = [sampleEdge] :=
  ⟨(edge_delete_persist_first [sampleEdge] "e2").2.1 sampleEdge (by decide) (by decide),
   (edge_delete_persist_first [sampleEdge] "e1").2.2⟩
